import Mathlib

/-!
# Rep-Link client shell: formal model

A shallow embedding of the Rep-Link prototype's client-side application
shell (persistent store, auth session manager, route guards, event bus)
together with proofs of the specified properties.

JavaScript values passed between the shell's components are modelled by
the inductive `Val` (JSON-like data; `undefined` is modelled as `Option.none`
where a lookup can miss).  Numbers are kept as their literal text, since no
shell contract depends on numeric arithmetic.  Stateful components are
modelled by explicit state passing; the externally observable effects
(storage writes, dispatched events, toasts, `location.href` assignments)
are returned alongside the new state.
-/

namespace RepLink

/-- JSON-like runtime values.  JS `undefined` is represented by `Option.none`
at the points where it can occur (absent property, missing argument). -/
inductive Val where
  | null : Val
  | bool (b : Bool) : Val
  | num (lit : String) : Val
  | str (s : String) : Val
  | arr (elems : List Val) : Val
  | obj (fields : List (String × Val)) : Val

/-- A JS object: ordered association list of own enumerable properties. -/
abbrev Obj := List (String × Val)

/-- Property read `o[k]` on an object: first binding wins, `none` = `undefined`. -/
def objGet : Obj → String → Option Val
  | [], _ => none
  | (k', v) :: rest, k => if k' = k then some v else objGet rest k

/-- Property write `o[k] = v` on an object: updates an existing key in place
(preserving its position) or appends a new one, as JS assignment does. -/
def objSet : Obj → String → Val → Obj
  | [], k, v => [(k, v)]
  | (k', v') :: rest, k, v =>
    if k' = k then (k, v) :: rest else (k', v') :: objSet rest k v

/-- Object destructuring that drops one key (`const {k: _, ...rest} = o`). -/
def objRemove : Obj → String → Obj
  | [], _ => []
  | (k', v) :: rest, k =>
    if k' = k then objRemove rest k else (k', v) :: objRemove rest k

/-- JS optional chaining `o?.k` where `o` itself may be `undefined`/`null`. -/
def optChain (v : Option Val) (k : String) : Option Val :=
  match v with
  | some (Val.obj fields) => objGet fields k
  | _ => none

/-- ASCII lower-casing of one character; agrees with JS `toLowerCase` on the
ASCII strings the shell handles. -/
def charLower (c : Char) : Char :=
  if 65 ≤ c.toNat ∧ c.toNat ≤ 90 then Char.ofNat (c.toNat + 32) else c

/-- Model of `String.prototype.toLowerCase` (ASCII). -/
def strLower (s : String) : String := ⟨s.data.map charLower⟩

/-- ASCII whitespace recognized by `String.prototype.trim`. -/
def isWsChar (c : Char) : Bool :=
  c = ' ' || c = '\t' || c = '\n' || c = '\r' || c = Char.ofNat 12 || c = Char.ofNat 11

/-- Model of `String.prototype.trim`. -/
def strTrim (s : String) : String :=
  ⟨((s.data.dropWhile isWsChar).reverse.dropWhile isWsChar).reverse⟩

mutual
/-- JS `String(v)` conversion for defined values. -/
def valToString : Val → String
  | .null => "null"
  | .bool b => cond b "true" "false"
  | .num lit => lit
  | .str s => s
  | .obj _ => "[object Object]"
  | .arr es => valListJoin es

/-- Model of `Array.prototype.join(',')` as used by `Array.prototype.toString`:
`null` elements render empty. -/
def valListJoin : List Val → String
  | [] => ""
  | [.null] => ""
  | [e] => valToString e
  | .null :: es => "," ++ valListJoin es
  | e :: es => valToString e ++ "," ++ valListJoin es
end

/-- JS `String(v)` where `v` may be `undefined`. -/
def jsString : Option Val → String
  | none => "undefined"
  | some v => valToString v

/-- Whether a numeric literal denotes zero (`0`, `-0`, `0.00`, `0e5`, …),
i.e. is falsy as a JS number. -/
def numLitIsZero (lit : String) : Bool :=
  let cs := match lit.data with
            | '-' :: rest => rest
            | '+' :: rest => rest
            | cs => cs
  let mantissa := cs.takeWhile (fun c => !(c == 'e' || c == 'E'))
  !mantissa.isEmpty && mantissa.all (fun c => c == '0' || c == '.')

/-- JS truthiness of a defined value. -/
def Val.truthy : Val → Bool
  | .null => false
  | .bool b => b
  | .num lit => !numLitIsZero lit
  | .str s => !s.data.isEmpty
  | .arr _ => true
  | .obj _ => true

/-- JS truthiness where the value may be `undefined`. -/
def jsTruthy : Option Val → Bool
  | none => false
  | some v => v.truthy

/-- JS strict equality `v === s` between a possibly-undefined value and a
string literal. -/
def strictEqStr (v : Option Val) (s : String) : Bool :=
  match v with
  | some (.str t) => t = s
  | _ => false

/-- JS nullish coalescing `a ?? b` over possibly-undefined values. -/
def jsCoalesce (a b : Option Val) : Option Val :=
  match a with
  | none => b
  | some .null => b
  | some v => some v

/-- Own enumerable properties contributed by `{...v}`: objects spread their
fields, strings and arrays their indexed elements, other primitives nothing. -/
def spreadFields : Val → Obj
  | .obj fs => fs
  | .str s => s.data.enum.map (fun p => (toString p.1, Val.str p.2.toString))
  | .arr es => es.enum.map (fun p => (toString p.1, p.2))
  | _ => []

/-- Object-literal spread `{...a, ...b}`: the keys of `a` in order, each
taking `b`'s value when `b` also has the key, followed by the keys of `b`
that `a` lacks, in `b`'s order. -/
def spreadMerge (a b : Obj) : Obj :=
  a.map (fun p => (p.1, (objGet b p.1).getD p.2)) ++
    b.filter (fun p => (objGet a p.1).isNone)

/-! ## Persistent Store, `unnamed/part_018`

```js
const DEFAULT_STATE = { auth: { isAuthed: false, user: null, token: null }, users: [], ... };
get(path)  { if (path === 'auth') return this.state.auth; return this.state[path]; }
set(path, value) { this.state[path] = value; this.save();
                   if (path === 'auth') window.dispatchEvent(new CustomEvent('auth:changed', { detail: value })); }
setAuth(auth) { this.set('auth', auth); }
clearAuth()   { this.set('auth', { isAuthed: false, user: null, token: null }); }
```
-/

/-- The unauthenticated default `auth` slot of `part_018`'s store
(also what `clearAuth` writes). -/
def clearedSession : Val :=
  .obj [("isAuthed", .bool false), ("user", .null), ("token", .null)]

/-- Model of `DEFAULT_STATE` of `part_018`. -/
def default18State : Val :=
  .obj [("auth", clearedSession),
        ("users", .arr []), ("businesses", .arr []), ("opportunities", .arr []),
        ("proposals", .arr []), ("contracts", .arr []), ("messages", .arr []),
        ("faq", .arr [])]

/-- Model of `Store.get` of `part_018` (the `'auth'` branch is the same lookup). -/
def store18Get (state : Obj) (path : String) : Option Val :=
  if path = "auth" then objGet state "auth" else objGet state path

/-- Model of `Store.set` of `part_018`: mutate the slot, persist, and return the list
of `auth:changed` events dispatched (`[value]` exactly when `path = "auth"`). -/
def store18Set (state : Obj) (path : String) (value : Val) : Obj × List Val :=
  (objSet state path value, if path = "auth" then [value] else [])

/-- Model of `Store.setAuth` of `part_018`. -/
def store18SetAuth (state : Obj) (auth : Val) : Obj × List Val :=
  store18Set state "auth" auth

/-- Model of `Store.clearAuth` of `part_018`. -/
def store18ClearAuth (state : Obj) : Obj × List Val :=
  store18Set state "auth" clearedSession

/-! ## Persistent Store, `scripts/data/store.js`

```js
get(key, defaultValue = null) { return this.data.has(key) ? this.data.get(key) : defaultValue; }
set(key, value) { const oldValue = this.data.get(key); this.data.set(key, value);
                  this.emit('data:changed', { key, value, oldValue });
                  this.emit(`data:changed:${key}`, { value, oldValue }); }
update(key, updates) { const currentValue = this.get(key, {});
                       const newValue = { ...currentValue, ...updates };
                       this.set(key, newValue); }
```
A JS `Map` keyed by strings behaves exactly like the insertion-ordered
association list `Obj` under `objGet`/`objSet`.
-/

/-- Model of `Store.get` of `scripts/data/store.js` (with explicit default value;
`none` models an `undefined` default argument, giving JS `null`). -/
def storeJsGet (data : Obj) (key : String) (defaultValue : Val) : Val :=
  match objGet data key with
  | some v => v
  | none => defaultValue

/-- Model of `Store.set` of `scripts/data/store.js`: new map plus the two
`data:changed` events `(eventName, key, value, oldValue)`. -/
def storeJsSet (data : Obj) (key : String) (value : Val) :
    Obj × List (String × String × Val × Option Val) :=
  let oldValue := objGet data key
  (objSet data key value,
   [("data:changed", key, value, oldValue),
    ("data:changed:" ++ key, key, value, oldValue)])

/-- Model of `Store.update` of `scripts/data/store.js`:
`const currentValue = this.get(key, {}); this.set(key, { ...currentValue, ...updates })`. -/
def storeJsUpdate (data : Obj) (key : String) (updates : Obj) : Obj :=
  let currentValue := storeJsGet data key (.obj [])
  (storeJsSet data key (.obj (spreadMerge (spreadFields currentValue) updates))).1

/-! ## `JSON.parse`

An executable model of `JSON.parse`, needed to settle how each store reacts
to a malformed persisted blob.  `Except.error` models the `SyntaxError`
that `JSON.parse` throws. -/

/-- Skip JSON whitespace. -/
def skipWs : List Char → List Char
  | [] => []
  | c :: cs => if c = ' ' || c = '\t' || c = '\n' || c = '\r' then skipWs cs else c :: cs

/-- Single-character string escapes. -/
def escChar (c : Char) : Option Char :=
  if c = '"' then some '"'
  else if c = '\\' then some '\\'
  else if c = '/' then some '/'
  else if c = 'b' then some (Char.ofNat 8)
  else if c = 'f' then some (Char.ofNat 12)
  else if c = 'n' then some '\n'
  else if c = 'r' then some '\r'
  else if c = 't' then some '\t'
  else none

/-- Value of one hexadecimal digit. -/
def hexVal (c : Char) : Option Nat :=
  if '0' ≤ c ∧ c ≤ '9' then some (c.toNat - '0'.toNat)
  else if 'a' ≤ c ∧ c ≤ 'f' then some (c.toNat - 'a'.toNat + 10)
  else if 'A' ≤ c ∧ c ≤ 'F' then some (c.toNat - 'A'.toNat + 10)
  else none

/-- Body of a JSON string, after the opening quote. -/
def parseStringBody : List Char → Except String (String × List Char)
  | [] => .error "unterminated string"
  | '"' :: rest => .ok ("", rest)
  | '\\' :: 'u' :: h1 :: h2 :: h3 :: h4 :: rest =>
    match hexVal h1, hexVal h2, hexVal h3, hexVal h4 with
    | some a, some b, some c, some d => do
      let (s, r) ← parseStringBody rest
      .ok ((Char.ofNat (((a * 16 + b) * 16 + c) * 16 + d)).toString ++ s, r)
    | _, _, _, _ => .error "bad unicode escape"
  | '\\' :: e :: rest =>
    match escChar e with
    | some c => do
      let (s, r) ← parseStringBody rest
      .ok (c.toString ++ s, r)
    | none => .error "bad escape"
  | c :: rest => do
    let (s, r) ← parseStringBody rest
    .ok (c.toString ++ s, r)

/-- Characters that may occur in a numeric literal. -/
def numChar (c : Char) : Bool :=
  c.isDigit || c = '-' || c = '+' || c = '.' || c = 'e' || c = 'E'

/-- Take the maximal run of number characters. -/
def takeNum : List Char → String × List Char
  | [] => ("", [])
  | c :: cs =>
    if numChar c then
      let (s, r) := takeNum cs
      (c.toString ++ s, r)
    else ("", c :: cs)

/-- Consume one or more digits, returning the remainder; `none` when no
digit is present. -/
def digits1 (cs : List Char) : Option (List Char) :=
  let d := cs.takeWhile Char.isDigit
  if d.isEmpty then none else some (cs.drop d.length)

/-- Grammar check for a JSON number:
`-? digits (. digits)? ([eE] [+-]? digits)?` (leading zeros are tolerated,
which only widens acceptance on inputs no store ever writes). -/
def checkNumLit (lit : String) : Bool :=
  let cs := match lit.data with
            | '-' :: rest => rest
            | cs => cs
  match digits1 cs with
  | none => false
  | some r1 =>
    let r2 : Option (List Char) :=
      match r1 with
      | '.' :: rest => digits1 rest
      | _ => some r1
    match r2 with
    | none => false
    | some [] => true
    | some (e :: rest) =>
      if e = 'e' || e = 'E' then
        let rest' := match rest with
                     | '+' :: r => r
                     | '-' :: r => r
                     | r => r
        match digits1 rest' with
        | some [] => true
        | _ => false
      else false

/-- Selector for the three mutually recursive JSON productions
(value / array items / object members), merged into one function so the
recursion is structural on the depth fuel. -/
inductive PTask where
  | value
  | arrItems
  | objItems

/-- The JSON parser: array-item and object-member lists are returned
wrapped in `.arr` / `.obj`. -/
def parseF : Nat → PTask → List Char → Except String (Val × List Char)
  | 0, _, _ => .error "depth limit"
  | fuel + 1, .value, cs =>
    match skipWs cs with
    | [] => .error "unexpected end of input"
    | '{' :: rest =>
      (match skipWs rest with
       | '}' :: r => .ok (.obj [], r)
       | cs' => parseF fuel .objItems cs')
    | '[' :: rest =>
      (match skipWs rest with
       | ']' :: r => .ok (.arr [], r)
       | cs' => parseF fuel .arrItems cs')
    | '"' :: rest => do
      let (s, r) ← parseStringBody rest
      .ok (.str s, r)
    | 't' :: 'r' :: 'u' :: 'e' :: rest => .ok (.bool true, rest)
    | 'f' :: 'a' :: 'l' :: 's' :: 'e' :: rest => .ok (.bool false, rest)
    | 'n' :: 'u' :: 'l' :: 'l' :: rest => .ok (.null, rest)
    | c :: rest =>
      if c.isDigit || c = '-' then
        let p := takeNum (c :: rest)
        if checkNumLit p.1 then .ok (.num p.1, p.2) else .error "bad number"
      else .error "unexpected character"
  | fuel + 1, .arrItems, cs => do
    let (v, r) ← parseF fuel .value cs
    match skipWs r with
    | ',' :: r2 => do
      let (vs, r3) ← parseF fuel .arrItems r2
      match vs with
      | .arr items => .ok (.arr (v :: items), r3)
      | _ => .error "malformed items result"
    | ']' :: r2 => .ok (.arr [v], r2)
    | _ => .error "expected comma or close bracket"
  | fuel + 1, .objItems, cs =>
    match skipWs cs with
    | '"' :: rest => do
      let (k, r) ← parseStringBody rest
      match skipWs r with
      | ':' :: r2 => do
        let (v, r3) ← parseF fuel .value r2
        match skipWs r3 with
        | ',' :: r4 => do
          let (fs, r5) ← parseF fuel .objItems r4
          match fs with
          | .obj fields => .ok (.obj ((k, v) :: fields), r5)
          | _ => .error "malformed members result"
        | '}' :: r4 => .ok (.obj [(k, v)], r4)
        | _ => .error "expected comma or close brace"
      | _ => .error "expected colon"
    | _ => .error "expected string key"

/-- Model of `JSON.parse`: parse one value, then require only whitespace to remain. -/
def jsonParse (s : String) : Except String Val := do
  let (v, rest) ← parseF (s.length + 2) .value s.data
  if (skipWs rest).isEmpty then .ok v else .error "unexpected trailing characters"

/-! ## Store hydration from durable storage -/

/-- Model of `part_018` Store constructor:
`const raw = localStorage.getItem(KEY); this.state = raw ? JSON.parse(raw) : DEFAULT_STATE;`.
`raw = none` models an absent key.  An empty stored string is falsy, so it
also selects the default.  A present malformed blob makes `JSON.parse`
throw, and nothing catches it: the error propagates out of the constructor. -/
def store18Construct (raw : Option String) : Except String Val :=
  match raw with
  | none => .ok default18State
  | some s => if s.data.isEmpty then .ok default18State else jsonParse s

/-- Model of `Object.entries(v)` as used by `new Map(Object.entries(parsed))` in
`scripts/data/store.js` `load`: throws on `null`, yields indexed entries for
strings and arrays, own fields for objects, and nothing for the
remaining primitives. -/
def objectEntries : Val → Except String Obj
  | .null => .error "cannot convert null to object"
  | .obj fs => .ok fs
  | .str s => .ok (s.data.enum.map (fun p => (toString p.1, Val.str p.2.toString)))
  | .arr es => .ok (es.enum.map (fun p => (toString p.1, p.2)))
  | .bool _ => .ok []
  | .num _ => .ok []

/-- The default `auth` slot installed by `initializeDefaultData` in
`scripts/data/store.js`. -/
def defaultAuthJs : Val :=
  .obj [("token", .null), ("user", .null), ("isAuthenticated", .bool false),
        ("lastLogin", .null)]

/-- Model of `initializeDefaultData` of `scripts/data/store.js`. -/
def storeJsDefaultData : Obj :=
  [("auth", defaultAuthJs),
   ("users", .arr []), ("businesses", .arr []), ("opportunities", .arr []),
   ("proposals", .arr []), ("contracts", .arr []), ("messages", .arr []),
   ("app", .obj [("theme", .str "light"), ("language", .str "en"),
                 ("notifications", .bool true), ("lastSync", .null)]),
   ("ui", .obj [("sidebarOpen", .bool false), ("currentPage", .null),
                ("filters", .obj []), ("searchQuery", .str "")])]

/-- Model of `Store.load` of `scripts/data/store.js`: parse the stored blob into the
map inside a `try`; any parse/convert error is caught and replaced by
`initializeDefaultData()`, as is an empty result.  Total: never throws. -/
def storeJsLoad (raw : Option String) : Obj :=
  let attempt : Except String Obj :=
    match raw with
    | none => .ok []
    | some s => do
      let v ← jsonParse s
      objectEntries v
  match attempt with
  | .error _ => storeJsDefaultData
  | .ok d => if d.length = 0 then storeJsDefaultData else d

/-! ## `api.login` (the api object appended to `scripts/data/store.js`)

```js
async login(email, password) {
  const users = await this.getUsers();
  const em = String(email || '').trim().toLowerCase();
  const pw = String(password || '');
  const u = users.find(x => String(x.email).toLowerCase() === em);
  const expected = u?.password ?? u?.__pw;
  if (!u) throw new Error('No such user');
  if (String(expected) !== pw) throw new Error('Incorrect password');
  const { password: _pw, __pw: _p2, ...safe } = u;
  return safe;
}
```
`throw` across this boundary is modelled by `Except.error`; for string
arguments `String(x || '')` is the identity. -/

/-- The typed authentication errors thrown by `api.login`. -/
inductive AuthError where
  | noSuchUser
  | incorrectPassword
deriving Repr, DecidableEq

/-- The `Error.message` carried by each auth error. -/
def authErrorMessage : AuthError → String
  | .noSuchUser => "No such user"
  | .incorrectPassword => "Incorrect password"

/-- Model of `String(email || '').trim().toLowerCase()`. -/
def normalizeEmail (email : String) : String := strLower (strTrim email)

/-- The lookup key of one user record: `String(x.email).toLowerCase()`. -/
def userEmailKey (x : Obj) : String := strLower (jsString (objGet x "email"))

/-- Model of `u?.password ?? u?.__pw`. -/
def expectedSecret (u : Obj) : Option Val :=
  jsCoalesce (objGet u "password") (objGet u "__pw")

/-- Model of `api.login` over a given user collection. -/
def apiLogin (email password : String) (users : List Obj) : Except AuthError Obj :=
  let em := normalizeEmail email
  let pw := password
  match users.find? (fun x => userEmailKey x == em) with
  | none => .error .noSuchUser
  | some u =>
    if jsString (expectedSecret u) ≠ pw then .error .incorrectPassword
    else .ok (objRemove (objRemove u "password") "__pw")

/-- Model of `FALLBACK_USERS[0]` with the in-memory prototype password attached by
`api.getUsers`. -/
def demoRep : Obj :=
  [("id", .str "u-rep-001"), ("name", .str "Demo Rep"),
   ("email", .str "rep@replink.dev"), ("role", .str "rep"),
   ("avatar", .str "/assets/img/rep1.svg"), ("phone", .str "+65 9123 4567"),
   ("nric", .str "S1234567A"),
   ("address", .str "123 Main Street, Singapore 123456"),
   ("bio", .str "Experienced sales representative with 5+ years in B2B sales"),
   ("singpassLinked", .bool true),
   ("createdAt", .str "2024-01-15T08:00:00.000Z"),
   ("__pw", .str "RepLink#2025")]

/-- Model of `FALLBACK_USERS[1]` with the in-memory prototype password attached by
`api.getUsers`. -/
def demoBusiness : Obj :=
  [("id", .str "u-biz-001"), ("name", .str "Demo Business"),
   ("email", .str "business@replink.dev"), ("role", .str "business"),
   ("avatar", .str "/assets/img/rep2.svg"),
   ("company", .str "Rep-Link Demo Co."), ("phone", .str "+65 9876 5432"),
   ("address", .str "456 Business Ave, Singapore 654321"),
   ("bio", .str "Business owner with 10+ years in technology sector"),
   ("singpassLinked", .bool true),
   ("createdAt", .str "2024-01-10T09:00:00.000Z"),
   ("__pw", .str "RepLink#2025")]

/-! ## App shell helpers (`scripts/app.js`) -/

/-- Unreserved characters of `encodeURIComponent`. -/
def uriUnreserved (c : Char) : Bool :=
  c.isAlphanum || c = '-' || c = '_' || c = '.' || c = '!' || c = '~' ||
    c = '*' || c = Char.ofNat 39 || c = '(' || c = ')'

/-- UTF-8 bytes of a code point. -/
def utf8Bytes (n : Nat) : List Nat :=
  if n < 128 then [n]
  else if n < 2048 then [192 + n / 64, 128 + n % 64]
  else if n < 65536 then [224 + n / 4096, 128 + (n / 64) % 64, 128 + n % 64]
  else [240 + n / 262144, 128 + (n / 4096) % 64, 128 + (n / 64) % 64, 128 + n % 64]

/-- Uppercase hexadecimal digit. -/
def hexDigit (n : Nat) : Char :=
  if n < 10 then Char.ofNat (48 + n) else Char.ofNat (65 + n - 10)

/-- One percent-encoded byte. -/
def pctByte (b : Nat) : String :=
  "%" ++ (hexDigit (b / 16)).toString ++ (hexDigit (b % 16)).toString

/-- Model of `encodeURIComponent`. -/
def encodeURIComponent (s : String) : String :=
  s.data.foldl
    (fun acc c =>
      acc ++ (if uriUnreserved c then c.toString
              else String.join ((utf8Bytes c.toNat).map pctByte))) ""

/-- Model of `dashboardHrefFor(user)` from `scripts/app.js`, with the
location-derived site root passed explicitly. -/
def dashboardHrefFor (siteRoot : String) (user : Option Obj) : String :=
  match user with
  | none => siteRoot ++ "/pages/login.html"
  | some u =>
    siteRoot ++ (if strictEqStr (objGet u "role") "business"
                 then "/pages/business-dashboard.html"
                 else "/pages/rep-dashboard.html")

/-! ## Route guards -/

/-- Outcome of a guard call: the boolean it returns and the
`location.href` assignment it performs, if any. -/
structure GuardResult where
  allowed : Bool
  redirect : Option String
deriving Repr, DecidableEq

/-- Truthiness of a possibly-undefined string (`role &&`, `!event.newValue`). -/
def strTruthy : Option String → Bool
  | none => false
  | some s => !s.data.isEmpty

/-- Model of `guard(role)` from `scripts/features/guards.js`:

```js
const a = store.get('auth');
if (!a?.isAuthed) { location.href = '/pages/login.html'; return false; }
if (role && a.user?.role !== role) {
  location.href = a.user?.role === 'business'
    ? '/pages/business-dashboard.html' : '/pages/rep-dashboard.html';
  return false;
}
return true;
```
-/
def guard (st : Obj) (role : Option String) : GuardResult :=
  let a := store18Get st "auth"
  if !(jsTruthy (optChain a "isAuthed")) then
    { allowed := false, redirect := some "/pages/login.html" }
  else
    match role with
    | some r =>
      if !r.data.isEmpty && !(strictEqStr (optChain (optChain a "user") "role") r) then
        { allowed := false,
          redirect := some (if strictEqStr (optChain (optChain a "user") "role") "business"
                            then "/pages/business-dashboard.html"
                            else "/pages/rep-dashboard.html") }
      else { allowed := true, redirect := none }
    | none => { allowed := true, redirect := none }

/-- Model of `guardPage(requiredRole, redirect)` from `scripts/app.js`: the
unauthenticated redirect carries the requested path in a `next` query
parameter; a role mismatch goes to the 403 page. -/
def guardPage (st : Obj) (siteRoot currentPath : String) (requiredRole : Option String)
    (redirect : String) : GuardResult :=
  let auth := store18Get st "auth"
  if !(jsTruthy (optChain auth "isAuthed")) then
    { allowed := false,
      redirect := some (siteRoot ++ redirect ++ "?next=" ++ encodeURIComponent currentPath) }
  else
    match requiredRole with
    | some r =>
      if !r.data.isEmpty && !(strictEqStr (optChain (optChain auth "user") "role") r) then
        { allowed := false, redirect := some (siteRoot ++ "/pages/403.html") }
      else { allowed := true, redirect := none }
    | none => { allowed := true, redirect := none }

/-- The call pattern of guarded pages (`if (!requireBusiness()) return;`):
the wrapped page body runs only when the guard returns true. -/
def runGuarded {α : Type} (st : Obj) (role : Option String) (page : Unit → α) : Option α :=
  if (guard st role).allowed then some (page ()) else none

/-! ## Login flow and auth session manager (`unnamed/part_008`) -/

/-- The session written on successful login by `Auth.handleLoginSuccess`
and by the login form handler: `{ isAuthed: true, user, token: 'dev' }`. -/
def loginSession (user : Obj) : Val :=
  .obj [("isAuthed", .bool true), ("user", .obj user), ("token", .str "dev")]

/-- The session written on successful registration by the signup flow's
`handleStep2`: `{ isAuthed: true, user: newUser, token: 'mock-token-' + Date.now() }`. -/
def registerSession (user : Obj) (now : Nat) : Val :=
  .obj [("isAuthed", .bool true), ("user", .obj user),
        ("token", .str ("mock-token-" ++ toString now))]

/-- Result of the login form submit handler: the store afterwards, the
`auth:changed` events dispatched, the inline form error shown, and the
`location.href` assignment performed. -/
structure FlowResult where
  store : Obj
  authChangedEvents : List Val
  formError : Option String
  redirect : Option String

/-- The login form submit handler at the bottom of `unnamed/part_008`:

```js
const email = q('loginEmail')?.value?.trim() || '';
const password = q('loginPassword')?.value || '';
if (!email || password.length < 3) { showError(form, 'Enter a valid email and password.'); return; }
try {
  const user = await api.login(email, password);
  store.setAuth({ isAuthed: true, user, token: 'dev' });
  location.href = dashboardHrefFor(user);
} catch (err) { showError(form, err.message || 'Login failed.'); }
```

Every `api.login` throw is caught here, so the handler is a total function:
auth errors surface as an inline message, never as an exception. -/
def loginFlow (st : Obj) (siteRoot : String) (emailField passwordField : String)
    (users : List Obj) : FlowResult :=
  let email := strTrim emailField
  let password := passwordField
  if email.data.isEmpty || password.length < 3 then
    { store := st, authChangedEvents := [],
      formError := some "Enter a valid email and password.", redirect := none }
  else
    match apiLogin email password users with
    | .ok user =>
      let written := store18SetAuth st (loginSession user)
      { store := written.1, authChangedEvents := written.2, formError := none,
        redirect := some (dashboardHrefFor siteRoot (some user)) }
    | .error e =>
      { store := st, authChangedEvents := [],
        formError := some (authErrorMessage e), redirect := none }

/-- Local state of the `Auth` session manager class. -/
structure AuthMgrState where
  storeState : Obj
  sessionTimeout : Option Nat
  currentUser : Option Obj
  isAuthenticated : Bool

/-- Externally observable effects of one `Auth` operation: `auth:changed`
window events (from `Store.set`), event-bus emissions, and toasts
`(message, kind)`. -/
structure EffectLog where
  authChanged : List Val
  busEvents : List String
  toasts : List (String × String)

/-- Model of `Auth.logout` (the `finally` block, which always runs):

```js
this.store.clearAuth();
if (this.sessionTimeout) { clearTimeout(this.sessionTimeout); this.sessionTimeout = null; }
this.currentUser = null; this.isAuthenticated = false;
this.eventBus.emit('auth:logout');
this.toast.show('You have been logged out', 'info');
```
-/
def logout (s : AuthMgrState) : AuthMgrState × EffectLog :=
  let cleared := store18ClearAuth s.storeState
  ({ storeState := cleared.1, sessionTimeout := none,
     currentUser := none, isAuthenticated := false },
   { authChanged := cleared.2, busEvents := ["auth:logout"],
     toasts := [("You have been logged out", "info")] })

/-- The expiry timer callback armed by `Auth.setSessionTimeout`: a
session-expired warning toast followed by `logout()`. -/
def expiryFire (s : AuthMgrState) : AuthMgrState × EffectLog :=
  let r := logout s
  (r.1, { r.2 with
          toasts := ("Your session has expired. Please log in again.", "warning")
            :: r.2.toasts })

/-- A browser `storage` event; `newValue = none` means the key was removed. -/
structure StorageEvent where
  key : String
  newValue : Option String

/-- Model of `Auth.handleStorageChange`:
`if (event.key === 'auth-token' && !event.newValue) this.logout();`. -/
def handleStorageChange (s : AuthMgrState) (e : StorageEvent) : AuthMgrState × EffectLog :=
  if e.key == "auth-token" && !(strTruthy e.newValue) then logout s
  else (s, { authChanged := [], busEvents := [], toasts := [] })

/-! ## Reachable `auth` slot states

Every write to the `auth` slot in the shell goes through `Store.setAuth` /
`Store.clearAuth` of `part_018`: successful login (`loginSession`),
successful registration (`registerSession`), and the clearing operations
(logout, expiry-timer firing, cross-tab clear), which all call
`Store.clearAuth`.  Hydration replays the persisted slot, which is itself
one of these values (or the default). -/

/-- The operations that write the `auth` slot. -/
inductive AuthOp where
  | loginSuccess (user : Obj)
  | registerSuccess (user : Obj) (now : Nat)
  | logout
  | expiry
  | crossTabClear

/-- Effect of one operation on the `auth` slot value.  Every operation
replaces the whole slot, so the previous value is unused. -/
def applyAuthOp (_s : Val) : AuthOp → Val
  | .loginSuccess u => loginSession u
  | .registerSuccess u now => registerSession u now
  | .logout => clearedSession
  | .expiry => clearedSession
  | .crossTabClear => clearedSession

/-- The `auth` slot after a sequence of operations, starting from the
hydrated default. -/
def authAfter (ops : List AuthOp) : Val :=
  ops.foldl applyAuthOp clearedSession

/-- A session field that is present and non-null. -/
def fieldNonNull (s : Val) (k : String) : Prop :=
  ∃ v, optChain (some s) k = some v ∧ v ≠ Val.null

/-- The Session invariant: the authenticated flag is true iff both `user`
and `token` are non-null, and an unauthenticated session has both fields
literally `null` (no partial states). -/
def sessionInvariant (s : Val) : Prop :=
  (optChain (some s) "isAuthed" = some (.bool true) ↔
    fieldNonNull s "user" ∧ fieldNonNull s "token")
  ∧ (optChain (some s) "isAuthed" ≠ some (.bool true) →
      optChain (some s) "user" = some .null ∧ optChain (some s) "token" = some .null)

/-! ## Event bus (`scripts/ui/event-bus.js`) -/

/-- One subscription record; the callback function is identified by a
number, its behaviour (whether it throws when invoked) is supplied to
`emit` as an environment. -/
structure Subscription where
  callback : Nat
  once : Bool
  priority : Int
deriving Repr, DecidableEq

/-- The `events` map of the bus: insertion-ordered, like a JS `Map`. -/
abbrev Bus := List (String × List Subscription)

/-- Model of `Map.get`. -/
def busGet : Bus → String → Option (List Subscription)
  | [], _ => none
  | (e, subs) :: rest, event => if e = event then some subs else busGet rest event

/-- Model of `Map.set`. -/
def busSet : Bus → String → List Subscription → Bus
  | [], event, subs => [(event, subs)]
  | (e, s') :: rest, event, subs =>
    if e = event then (event, subs) :: rest else (e, s') :: busSet rest event subs

/-- Model of `Map.delete`. -/
def busDelete (bus : Bus) (event : String) : Bus :=
  bus.filter (fun p => p.1 ≠ event)

/-- Insert into a descending-priority list after every entry of `≥`
priority: the position `Array.prototype.sort((a, b) => b.priority - a.priority)`
(a stable sort) gives the newly pushed element. -/
def insertByPriority (s : Subscription) : List Subscription → List Subscription
  | [] => [s]
  | t :: ts => if t.priority < s.priority then s :: t :: ts else t :: insertByPriority s ts

/-- Stable sort by descending priority: insert elements left to right, each
landing after already-placed entries of equal priority. -/
def sortByPriorityDesc (l : List Subscription) : List Subscription :=
  l.foldl (fun acc s => insertByPriority s acc) []

/-- Model of `EventBus.on`: push the subscription, then stable-sort by priority
(higher first). -/
def busOn (bus : Bus) (event : String) (cb : Nat)
    (once : Bool) (priority : Int) : Bus :=
  let subs := (busGet bus event).getD []
  busSet bus event (sortByPriorityDesc (subs ++ [⟨cb, once, priority⟩]))

/-- Remove the first subscription with the given callback
(`findIndex` + `splice`). -/
def removeFirstByCallback (cb : Nat) : List Subscription → List Subscription
  | [] => []
  | s :: rest => if s.callback = cb then rest else s :: removeFirstByCallback cb rest

/-- Model of `EventBus.off`: remove the first match, deleting the event's entry when
its list becomes empty. -/
def busOff (bus : Bus) (event : String) (cb : Nat) : Bus :=
  match busGet bus event with
  | none => bus
  | some subs =>
    let subs' := removeFirstByCallback cb subs
    if subs'.isEmpty then busDelete bus event else busSet bus event subs'

/-- Result of `EventBus.emit`: callbacks invoked in order, errors caught
and logged, and the bus afterwards (`once` subscriptions removed). -/
structure EmitResult where
  invoked : List Nat
  errorsLogged : List Nat
  bus : Bus
deriving Repr, DecidableEq

/-- One iteration of the `emit` loop: the callback runs inside `try`; a
throw is caught and logged (skipping the `once` removal); a normal return
removes a `once` subscription. -/
def emitStep (event : String) (throws : Nat → Bool) (acc : EmitResult)
    (s : Subscription) : EmitResult :=
  if throws s.callback then
    { acc with invoked := acc.invoked ++ [s.callback],
               errorsLogged := acc.errorsLogged ++ [s.callback] }
  else
    { acc with invoked := acc.invoked ++ [s.callback],
               bus := if s.once then busOff acc.bus event s.callback else acc.bus }

/-- Model of `EventBus.emit`: iterate over a copy of the subscription list, isolating
each handler's exceptions.  Total: no exception reaches the emitter. -/
def emit (bus : Bus) (event : String) (throws : Nat → Bool) : EmitResult :=
  match busGet bus event with
  | none => { invoked := [], errorsLogged := [], bus := bus }
  | some subs =>
    subs.foldl (emitStep event throws) { invoked := [], errorsLogged := [], bus := bus }

/-! # Helper lemmas -/

theorem objGet_objSet_self (o : Obj) (k : String) (v : Val) :
    objGet (objSet o k v) k = some v := by
  induction o with
  | nil => simp [objGet, objSet]
  | cons p rest ih =>
    obtain ⟨k', v'⟩ := p
    by_cases h : k' = k
    · simp [objSet, h, objGet]
    · simp [objSet, h, objGet, ih]

theorem objGet_objSet_other (o : Obj) (k k' : String) (v : Val) (hne : k' ≠ k) :
    objGet (objSet o k v) k' = objGet o k' := by
  induction o with
  | nil => simp [objGet, objSet, Ne.symm hne]
  | cons p rest ih =>
    obtain ⟨k₀, v₀⟩ := p
    by_cases h : k₀ = k
    · subst h
      simp [objSet, objGet, hne, Ne.symm hne]
    · simp [objSet, h, objGet, ih]

theorem objSet_objSet_same (o : Obj) (k : String) (v w : Val) :
    objSet (objSet o k v) k w = objSet o k w := by
  induction o with
  | nil => simp [objSet]
  | cons p rest ih =>
    obtain ⟨k₀, v₀⟩ := p
    by_cases h : k₀ = k
    · simp [objSet, h]
    · simp [objSet, h, ih]

/-! # Claim C1 — Session invariant -/

theorem sessionInvariant_cleared : sessionInvariant clearedSession := by
  constructor
  · constructor
    · intro h
      simp [clearedSession, optChain, objGet] at h
    · rintro ⟨⟨v, hv, hne⟩, -⟩
      simp [clearedSession, optChain, objGet] at hv
      exact absurd hv.symm hne
  · intro _
    constructor <;> simp [clearedSession, optChain, objGet]

theorem sessionInvariant_loginSession (u : Obj) :
    sessionInvariant (loginSession u) := by
  constructor
  · constructor
    · intro _
      exact ⟨⟨.obj u, by simp [loginSession, optChain, objGet], by simp⟩,
             ⟨.str "dev", by simp [loginSession, optChain, objGet], by simp⟩⟩
    · intro _
      simp [loginSession, optChain, objGet]
  · intro h
    exact absurd (by simp [loginSession, optChain, objGet]) h

theorem sessionInvariant_registerSession (u : Obj) (now : Nat) :
    sessionInvariant (registerSession u now) := by
  constructor
  · constructor
    · intro _
      exact ⟨⟨.obj u, by simp [registerSession, optChain, objGet], by simp⟩,
             ⟨.str ("mock-token-" ++ toString now),
              by simp [registerSession, optChain, objGet], by simp⟩⟩
    · intro _
      simp [registerSession, optChain, objGet]
  · intro h
    exact absurd (by simp [registerSession, optChain, objGet]) h

theorem sessionInvariant_applyAuthOp (s : Val) (op : AuthOp) :
    sessionInvariant (applyAuthOp s op) := by
  cases op with
  | loginSuccess u => exact sessionInvariant_loginSession u
  | registerSuccess u now => exact sessionInvariant_registerSession u now
  | logout => exact sessionInvariant_cleared
  | expiry => exact sessionInvariant_cleared
  | crossTabClear => exact sessionInvariant_cleared

theorem sessionInvariant_foldl (ops : List AuthOp) (s : Val)
    (hs : sessionInvariant s) : sessionInvariant (ops.foldl applyAuthOp s) := by
  induction ops generalizing s with
  | nil => exact hs
  | cons op rest ih => exact ih _ (sessionInvariant_applyAuthOp s op)

/-- **C1** — Session invariant: every `auth` slot value reachable from the
hydrated default through any sequence of login, registration, logout,
expiry, or cross-tab clear operations has its authenticated flag true iff
both `user` and `token` are non-null, and when the flag is not true both
fields are literally `null`: no partially populated session is ever
stored. -/
theorem auth_session_invariant (ops : List AuthOp) :
    sessionInvariant (authAfter ops) :=
  sessionInvariant_foldl ops clearedSession sessionInvariant_cleared

/-! # Claim C4 — Store round-trip law -/

/-- **C4** — Round-trip law: in both store implementations, `get` of a slot
immediately after `set` of that slot (same tab, no intervening write)
returns exactly the just-written value; in particular this holds for the
`auth` slot. -/
theorem store_get_set_roundTrip (st stJs : Obj) (k : String) (v dflt : Val) :
    store18Get (store18Set st k v).1 k = some v ∧
    storeJsGet (storeJsSet stJs k v).1 k dflt = v := by
  constructor
  · unfold store18Get store18Set
    by_cases h : k = "auth" <;> simp [h, objGet_objSet_self]
  · unfold storeJsGet storeJsSet
    simp [objGet_objSet_self]

/-! # Claim C2 — Login contract -/

theorem objGet_objRemove_self (o : Obj) (k : String) :
    objGet (objRemove o k) k = none := by
  induction o with
  | nil => rfl
  | cons p rest ih =>
    obtain ⟨k₀, v₀⟩ := p
    by_cases h : k₀ = k
    · simpa [objRemove, h] using ih
    · simp [objRemove, h, objGet, ih]

theorem objGet_objRemove_other (o : Obj) (k k' : String) (h : k' ≠ k) :
    objGet (objRemove o k) k' = objGet o k' := by
  induction o with
  | nil => rfl
  | cons p rest ih =>
    obtain ⟨k₀, v₀⟩ := p
    by_cases hk : k₀ = k
    · subst hk
      simp [objRemove, objGet, Ne.symm h, ih]
    · simp [objRemove, hk, objGet, ih]

/-- **C2** — Login contract: (i) `api.login` depends on the supplied email
only through its normalization (trim + lowercase), and looks users up by
that key case-insensitively; (ii) when no user's email matches it returns
the typed error `noSuchUser`; (iii) when the matched user's expected secret
differs from the password it returns the typed error `incorrectPassword`;
(iv) when the secret matches it returns the user with both secret fields
(`password`, `__pw`) removed; (v) errors cross the login boundary as typed
results: the form handler catches them and reports an inline message — the
flow is a total function, nothing is re-thrown. -/
theorem api_login_contract (email password : String) (users : List Obj) :
    (∀ email', normalizeEmail email' = normalizeEmail email →
      apiLogin email' password users = apiLogin email password users)
    ∧ ((∀ u ∈ users, userEmailKey u ≠ normalizeEmail email) →
      apiLogin email password users = .error .noSuchUser)
    ∧ (∀ u, users.find? (fun x => userEmailKey x == normalizeEmail email) = some u →
        jsString (expectedSecret u) ≠ password →
        apiLogin email password users = .error .incorrectPassword)
    ∧ (∀ u, users.find? (fun x => userEmailKey x == normalizeEmail email) = some u →
        jsString (expectedSecret u) = password →
        apiLogin email password users = .ok (objRemove (objRemove u "password") "__pw") ∧
        objGet (objRemove (objRemove u "password") "__pw") "password" = none ∧
        objGet (objRemove (objRemove u "password") "__pw") "__pw" = none)
    ∧ (∀ (st : Obj) (root : String) (e : AuthError),
        apiLogin (strTrim email) password users = .error e →
        (strTrim email).data.isEmpty = false → ¬password.length < 3 →
        loginFlow st root email password users =
          { store := st, authChangedEvents := [],
            formError := some (authErrorMessage e), redirect := none }) := by
  refine ⟨?_, ?_, ?_, ?_, ?_⟩
  · intro email' h
    simp only [apiLogin]
    rw [h]
  · intro h
    have hnone : users.find? (fun x => userEmailKey x == normalizeEmail email) = none := by
      rw [List.find?_eq_none]
      intro x hx
      simpa using h x hx
    simp [apiLogin, hnone]
  · intro u hu hpw
    simp [apiLogin, hu, hpw]
  · intro u hu hpw
    refine ⟨by simp [apiLogin, hu, hpw], ?_, ?_⟩
    · rw [objGet_objRemove_other _ _ _ (by decide), objGet_objRemove_self]
    · exact objGet_objRemove_self _ _
  · intro st root e he hempty hlen
    simp only [loginFlow, hempty, hlen, he]
    simp

/-- Witness for the login contract at the built-in demo accounts: a wrong
password, an unknown email, and the successful demo login. -/
theorem api_login_contract_witness :
    apiLogin "  Rep@Replink.DEV " "wrong" [demoRep, demoBusiness] =
      .error .incorrectPassword ∧
    apiLogin "nobody@replink.dev" "x" [demoRep, demoBusiness] =
      .error .noSuchUser ∧
    apiLogin "rep@replink.dev" "RepLink#2025" [demoRep, demoBusiness] =
      .ok (objRemove (objRemove demoRep "password") "__pw") :=
  ⟨(api_login_contract "  Rep@Replink.DEV " "wrong" [demoRep, demoBusiness]).2.2.1
      demoRep (by rfl) (by decide),
   (api_login_contract "nobody@replink.dev" "x" [demoRep, demoBusiness]).2.1
      (by decide),
   ((api_login_contract "rep@replink.dev" "RepLink#2025" [demoRep, demoBusiness]).2.2.2.1
      demoRep (by rfl) (by rfl)).1⟩

/-! # Claim C3 — Guard contract -/

/-- Whether `pre` is an initial segment of `s` (character lists). -/
def leadsWith : List Char → List Char → Bool
  | _, [] => true
  | [], _ :: _ => false
  | c :: cs, p :: ps => p == c && leadsWith cs ps

/-- Whether `sub` occurs contiguously inside `s` (character lists). -/
def subOccurs : List Char → List Char → Bool
  | [], sub => sub.isEmpty
  | c :: rest, sub => leadsWith (c :: rest) sub || subOccurs rest sub

/-- Substring containment, used to express that a redirect URL carries the
originally requested path. -/
def strContains (s sub : String) : Bool := subOccurs s.data sub.data

/-- An unauthenticated store state (the hydrated default `auth` slot). -/
def stAnon : Obj := [("auth", clearedSession)]

/-- **C3 counterexample** — the claim as stated is false: on an
unauthenticated session, `guard` from `scripts/features/guards.js` assigns
the bare login URL, which does not carry the originally requested path
(here `/pages/rep-dashboard.html`), although it does return false;
`guardPage` from `scripts/app.js` is the variant that carries the path. -/
theorem guard_counterexample :
    guard stAnon none = { allowed := false, redirect := some "/pages/login.html" } ∧
    strContains "/pages/login.html" "/pages/rep-dashboard.html" = false ∧
    guardPage stAnon "" "/pages/rep-dashboard.html" none "/pages/login.html" =
      { allowed := false,
        redirect := some "/pages/login.html?next=%2Fpages%2Frep-dashboard.html" } :=
  ⟨rfl, rfl, rfl⟩

theorem strictEqStr_eq {v : Option Val} {s : String} (h : strictEqStr v s = true) :
    v = some (.str s) := by
  match v with
  | none => simp [strictEqStr] at h
  | some .null | some (.bool _) | some (.num _) | some (.arr _) | some (.obj _) =>
    simp [strictEqStr] at h
  | some (.str t) =>
    simp [strictEqStr] at h
    rw [h]

/-- **C3 amended** — Guard contract: when the session is not authenticated,
both guards redirect to the login view and return false (`guardPage`
carries the originally requested path in a `next` parameter; `guard` uses
the bare login URL); when a non-empty required role is given and the
authenticated user's role differs, both redirect (`guard` to the actual
role's own dashboard, `guardPage` to the 403 view) and return false, and a
page wrapped by the guard is never invoked; when authenticated with a
matching role both return true and perform no redirect.  In particular a
guard requiring `business` on a session authenticated as `rep` always
redirects and never invokes the wrapped handler. -/
theorem guard_contract (st : Obj) (root path red r : String) (page : Unit → Nat) :
    (jsTruthy (optChain (store18Get st "auth") "isAuthed") = false →
      guard st (some r) = { allowed := false, redirect := some "/pages/login.html" } ∧
      guard st none = { allowed := false, redirect := some "/pages/login.html" } ∧
      guardPage st root path (some r) red =
        { allowed := false,
          redirect := some (root ++ red ++ "?next=" ++ encodeURIComponent path) } ∧
      runGuarded st (some r) page = none)
    ∧ (jsTruthy (optChain (store18Get st "auth") "isAuthed") = true →
       r.data.isEmpty = false →
       strictEqStr (optChain (optChain (store18Get st "auth") "user") "role") r = false →
      guard st (some r) =
        { allowed := false,
          redirect := some
            (if strictEqStr (optChain (optChain (store18Get st "auth") "user") "role") "business"
             then "/pages/business-dashboard.html" else "/pages/rep-dashboard.html") } ∧
      guardPage st root path (some r) red =
        { allowed := false, redirect := some (root ++ "/pages/403.html") } ∧
      runGuarded st (some r) page = none)
    ∧ (jsTruthy (optChain (store18Get st "auth") "isAuthed") = true →
       strictEqStr (optChain (optChain (store18Get st "auth") "user") "role") r = true →
      guard st (some r) = { allowed := true, redirect := none } ∧
      guardPage st root path (some r) red = { allowed := true, redirect := none } ∧
      runGuarded st (some r) page = some (page ()))
    ∧ (jsTruthy (optChain (store18Get st "auth") "isAuthed") = true →
       strictEqStr (optChain (optChain (store18Get st "auth") "user") "role") "rep" = true →
      guard st (some "business") =
        { allowed := false, redirect := some "/pages/rep-dashboard.html" } ∧
      runGuarded st (some "business") page = none) := by
  refine ⟨?_, ?_, ?_, ?_⟩
  · intro h
    have hg : guard st (some r) =
        { allowed := false, redirect := some "/pages/login.html" } := by
      simp [guard, h]
    exact ⟨hg, by simp [guard, h], by simp [guardPage, h], by simp [runGuarded, hg]⟩
  · intro h hr hne
    have hg : guard st (some r) =
        { allowed := false,
          redirect := some
            (if strictEqStr (optChain (optChain (store18Get st "auth") "user") "role") "business"
             then "/pages/business-dashboard.html" else "/pages/rep-dashboard.html") } := by
      simp [guard, h, hr, hne]
    exact ⟨hg, by simp [guardPage, h, hr, hne], by simp [runGuarded, hg]⟩
  · intro h hmatch
    have hg : guard st (some r) = { allowed := true, redirect := none } := by
      simp [guard, h, hmatch]
    exact ⟨hg, by simp [guardPage, h, hmatch], by simp [runGuarded, hg]⟩
  · intro h hrep
    have hv := strictEqStr_eq hrep
    have hbiz : strictEqStr (optChain (optChain (store18Get st "auth") "user") "role")
        "business" = false := by
      rw [hv]
      simp [strictEqStr]
    have hne : ("business".data.isEmpty) = false := by decide
    have hg : guard st (some "business") =
        { allowed := false, redirect := some "/pages/rep-dashboard.html" } := by
      simp [guard, h, hbiz, hne]
    exact ⟨hg, by simp [runGuarded, hg]⟩

/-- A store authenticated as the demo rep. -/
def stRep : Obj := [("auth", loginSession [("id", .str "u-rep-001"), ("role", .str "rep")])]

/-- Witness: the guard contract applied to a concrete rep session asked for
role `business` — redirect to the rep's own dashboard, handler not run. -/
theorem guard_contract_witness :
    guard stRep (some "business") =
      { allowed := false, redirect := some "/pages/rep-dashboard.html" } ∧
    runGuarded stRep (some "business") (fun _ => 7) = none :=
  (guard_contract stRep "" "/pages/business-dashboard.html" "/pages/login.html"
    "business" (fun _ => 7)).2.2.2 (by rfl) (by rfl)

/-! # Claim C5 — Storage-corruption recovery -/

/-- **C5 counterexample** — the claim as stated is false for `part_018`'s
store: with the malformed blob `"{"` present, the constructor's
`JSON.parse` throws and the error propagates to the caller instead of
falling back to the default state (absence, by contrast, is handled). -/
theorem store18_malformed_throws :
    store18Construct (some "\x7b") = .error "expected string key" ∧
    store18Construct none = .ok default18State :=
  ⟨rfl, rfl⟩

/-- **C5 amended** — Storage-corruption recovery: the `scripts/data/store.js`
`load` is a total function (it cannot throw) and yields the documented
unauthenticated default `auth` value whenever the stored blob is absent or
malformed; `part_018`'s constructor falls back to the default state only
when the blob is absent (or empty, which is falsy) — a present malformed
blob propagates the `JSON.parse` error out of the constructor. -/
theorem storage_corruption_recovery (s : String) :
    (∀ msg, jsonParse s = .error msg →
      storeJsGet (storeJsLoad (some s)) "auth" .null = defaultAuthJs)
    ∧ storeJsGet (storeJsLoad none) "auth" .null = defaultAuthJs
    ∧ store18Construct none = .ok default18State
    ∧ optChain (some default18State) "auth" = some clearedSession := by
  refine ⟨?_, by rfl, rfl, by rfl⟩
  intro msg h
  simp only [storeJsLoad]
  rw [h]
  rfl

/-- Witness: a concrete malformed blob is recovered by the `store.js` load
into the default auth session. -/
theorem storage_corruption_recovery_witness :
    storeJsGet (storeJsLoad (some "\x7b")) "auth" .null = defaultAuthJs :=
  (storage_corruption_recovery "\x7b").1 "expected string key" rfl

/-! # Claim C6 — Logout idempotence -/

/-- An authenticated auth-manager state (demo rep logged in, expiry timer
armed). -/
def authedMgr : AuthMgrState :=
  { storeState := [("auth", loginSession [("id", .str "u-rep-001"), ("role", .str "rep")])],
    sessionTimeout := some 1,
    currentUser := some [("id", .str "u-rep-001"), ("role", .str "rep")],
    isAuthenticated := true }

/-- **C6 counterexample** — the claim as stated is false: the second
`logout()` in a row still dispatches `auth:changed` (via `clearAuth` →
`set`), emits the `auth:logout` bus event, and shows the logged-out toast —
externally observable notifications beyond those of the first call. -/
theorem logout_second_call_emits :
    (logout (logout authedMgr).1).2.busEvents = ["auth:logout"] ∧
    (logout (logout authedMgr).1).2.authChanged = [clearedSession] ∧
    (logout (logout authedMgr).1).2.toasts = [("You have been logged out", "info")] ∧
    (logout (logout authedMgr).1).2.busEvents ≠ [] :=
  ⟨rfl, rfl, rfl, by decide⟩

/-- **C6 amended** — `logout()` always succeeds and is idempotent on the
session state: the second of two successive calls leaves the whole
auth-manager state exactly as the first left it (the `auth` slot already
holds the unauthenticated default), but it emits the same `auth:changed`
event, `auth:logout` bus event, and toast again. -/
theorem logout_idempotent_on_state (s : AuthMgrState) :
    (logout (logout s).1).1 = (logout s).1 ∧
    store18Get (logout s).1.storeState "auth" = some clearedSession ∧
    (logout (logout s).1).2 = (logout s).2 := by
  refine ⟨?_, ?_, rfl⟩
  · simp only [logout, store18ClearAuth, store18Set]
    simp [objSet_objSet_same]
  · simp only [logout, store18ClearAuth, store18Set]
    simp [store18Get, objGet_objSet_self]

/-! # Claim C7 — Failed-login atomicity -/

/-- **C7** — Failed-login atomicity: whenever the submitted email resolves
to a user but the supplied secret is wrong, `api.login` raises the typed
`incorrectPassword` error and the login flow leaves the stored session
exactly as it was — the store is unchanged, no `auth:changed` notification
is dispatched, no redirect happens; only the inline form message is shown. -/
theorem failed_login_atomic (st : Obj) (root emailField password : String)
    (users : List Obj) (u : Obj)
    (hval : ((strTrim emailField).data.isEmpty || decide (password.length < 3)) = false)
    (hfind : users.find? (fun x => userEmailKey x == normalizeEmail (strTrim emailField))
      = some u)
    (hpw : jsString (expectedSecret u) ≠ password) :
    apiLogin (strTrim emailField) password users = .error .incorrectPassword ∧
    loginFlow st root emailField password users =
      { store := st, authChangedEvents := [],
        formError := some "Incorrect password", redirect := none } := by
  have hapi : apiLogin (strTrim emailField) password users = .error .incorrectPassword := by
    simp [apiLogin, hfind, hpw]
  refine ⟨hapi, ?_⟩
  simp [loginFlow, hval, hapi, authErrorMessage]

/-- Witness: a wrong password for the demo rep leaves a concrete prior
store untouched and publishes nothing. -/
theorem failed_login_atomic_witness :
    apiLogin (strTrim "rep@replink.dev") "wrong" [demoRep, demoBusiness] =
      .error .incorrectPassword ∧
    loginFlow [("auth", clearedSession)] "" "rep@replink.dev" "wrong"
      [demoRep, demoBusiness] =
      { store := [("auth", clearedSession)], authChangedEvents := [],
        formError := some "Incorrect password", redirect := none } :=
  failed_login_atomic [("auth", clearedSession)] "" "rep@replink.dev" "wrong"
    [demoRep, demoBusiness] demoRep (by decide) (by rfl) (by decide)

/-! # Claim C8 — Cross-tab logout propagation -/

/-- **C8** — Cross-tab logout propagation: on receiving the browser storage
notification that the session token key was removed by another tab, the
local tab transitions to the logged-out state exactly as if `logout()` had
been called — the local flags clear, the `auth` slot becomes the
unauthenticated default — and any subsequent guarded navigation redirects
to the login view without invoking the page. -/
theorem cross_tab_logout (s : AuthMgrState) (e : StorageEvent)
    (hkey : e.key = "auth-token") (hrem : e.newValue = none) :
    handleStorageChange s e = logout s ∧
    (handleStorageChange s e).1.isAuthenticated = false ∧
    (handleStorageChange s e).1.currentUser = none ∧
    store18Get (handleStorageChange s e).1.storeState "auth" = some clearedSession ∧
    guard (handleStorageChange s e).1.storeState none =
      { allowed := false, redirect := some "/pages/login.html" } ∧
    (∀ (page : Unit → Nat),
      runGuarded (handleStorageChange s e).1.storeState none page = none) := by
  have hstep : handleStorageChange s e = logout s := by
    simp [handleStorageChange, hkey, hrem, strTruthy]
  have hget : store18Get (logout s).1.storeState "auth" = some clearedSession := by
    simp [logout, store18ClearAuth, store18Set, store18Get, objGet_objSet_self]
  have hguard : guard (logout s).1.storeState none =
      { allowed := false, redirect := some "/pages/login.html" } := by
    simp [guard, hget, clearedSession, optChain, objGet, jsTruthy, Val.truthy]
  rw [hstep]
  exact ⟨rfl, rfl, rfl, hget, hguard, fun page => by simp [runGuarded, hguard]⟩

/-- Witness: a concrete authenticated tab receiving the removal of
`auth-token` ends up logged out and guarded navigation redirects. -/
theorem cross_tab_logout_witness :
    handleStorageChange authedMgr ⟨"auth-token", none⟩ = logout authedMgr ∧
    guard (handleStorageChange authedMgr ⟨"auth-token", none⟩).1.storeState none =
      { allowed := false, redirect := some "/pages/login.html" } :=
  ⟨(cross_tab_logout authedMgr ⟨"auth-token", none⟩ rfl rfl).1,
   (cross_tab_logout authedMgr ⟨"auth-token", none⟩ rfl rfl).2.2.2.2.1⟩

/-! # Claim C9 — Event-bus ordering and isolation -/

theorem emitStep_invoked (event : String) (throws : Nat → Bool) (acc : EmitResult)
    (s : Subscription) :
    (emitStep event throws acc s).invoked = acc.invoked ++ [s.callback] := by
  unfold emitStep
  split <;> rfl

theorem foldl_emitStep_invoked (event : String) (throws : Nat → Bool)
    (subs : List Subscription) :
    ∀ acc, (subs.foldl (emitStep event throws) acc).invoked =
      acc.invoked ++ subs.map (fun s => s.callback) := by
  induction subs with
  | nil => intro acc; simp
  | cons s rest ih =>
    intro acc
    simp only [List.foldl_cons, List.map_cons]
    rw [ih, emitStep_invoked]
    simp

theorem emit_invoked (bus : Bus) (event : String) (throws : Nat → Bool) :
    (emit bus event throws).invoked =
      ((busGet bus event).getD []).map (fun s => s.callback) := by
  match h : busGet bus event with
  | none => simp [emit, h]
  | some subs => simp [emit, h, foldl_emitStep_invoked]

theorem busGet_busSet_self (bus : Bus) (event : String) (subs : List Subscription) :
    busGet (busSet bus event subs) event = some subs := by
  induction bus with
  | nil => simp [busGet, busSet]
  | cons p rest ih =>
    obtain ⟨e, s⟩ := p
    by_cases h : e = event
    · simp [busSet, h, busGet]
    · simp [busSet, h, busGet, ih]

theorem insertByPriority_zeros (s : Subscription) (l : List Subscription)
    (hs : s.priority = 0) (hl : ∀ t ∈ l, t.priority = 0) :
    insertByPriority s l = l ++ [s] := by
  induction l with
  | nil => rfl
  | cons t ts ih =>
    have ht := hl t (by simp)
    simp only [insertByPriority, ht, hs]
    simp only [lt_irrefl, if_false]
    rw [ih (fun t' h' => hl t' (by simp [h']))]
    simp

theorem foldl_insert_zeros (l : List Subscription) :
    ∀ acc, (∀ t ∈ l, t.priority = 0) → (∀ t ∈ acc, t.priority = 0) →
    l.foldl (fun a s => insertByPriority s a) acc = acc ++ l := by
  induction l with
  | nil => intro acc _ _; simp
  | cons s ls ih =>
    intro acc hl hacc
    simp only [List.foldl_cons]
    rw [insertByPriority_zeros s acc (hl s (by simp)) hacc,
        ih (acc ++ [s]) (fun t ht => hl t (by simp [ht]))
          (fun t ht => by
            rcases List.mem_append.mp ht with h | h
            · exact hacc t h
            · simp only [List.mem_singleton] at h
              subst h
              exact hl t (by simp))]
    simp

theorem sortByPriorityDesc_zeros (l : List Subscription)
    (hl : ∀ t ∈ l, t.priority = 0) : sortByPriorityDesc l = l := by
  unfold sortByPriorityDesc
  rw [foldl_insert_zeros l [] hl (by simp)]
  simp

/-- Subscribing a list of handlers in order with default options
(`once = false`, `priority = 0`), starting from a fresh bus. -/
def mkDefaultBus (event : String) (cbs : List Nat) : Bus :=
  cbs.foldl (fun b cb => busOn b event cb false 0) []

theorem busGetD_foldl_busOn (event : String) (cbs : List Nat) :
    ∀ bus, (∀ t ∈ (busGet bus event).getD [], t.priority = 0) →
    (busGet (cbs.foldl (fun b cb => busOn b event cb false 0) bus) event).getD []
      = (busGet bus event).getD [] ++ cbs.map (fun cb => ⟨cb, false, 0⟩) := by
  induction cbs with
  | nil => intro bus _; simp
  | cons cb rest ih =>
    intro bus hz
    simp only [List.foldl_cons, List.map_cons]
    have hsort : sortByPriorityDesc ((busGet bus event).getD [] ++ [⟨cb, false, 0⟩])
        = (busGet bus event).getD [] ++ [⟨cb, false, 0⟩] := by
      apply sortByPriorityDesc_zeros
      intro t ht
      rcases List.mem_append.mp ht with h | h
      · exact hz t h
      · simp only [List.mem_singleton] at h
        subst h
        rfl
    have hbus' : busGet (busOn bus event cb false 0) event
        = some ((busGet bus event).getD [] ++ [⟨cb, false, 0⟩]) := by
      simp only [busOn, hsort]
      exact busGet_busSet_self ..
    rw [ih (busOn bus event cb false 0) (by
      rw [hbus']
      intro t ht
      simp only [Option.getD_some, List.mem_append, List.mem_singleton] at ht
      rcases ht with h | h
      · exact hz t h
      · subst h
        rfl)]
    rw [hbus']
    simp

/-- Handler 1 subscribed first at the default priority, handler 2 second at
priority 1. -/
def priorityBus : Bus := busOn (busOn [] "e" 1 false 0) "e" 2 false 1

/-- **C9 counterexample** — the claim as stated is false: `on` accepts a
priority option and sorts handlers by descending priority, so a
higher-priority handler subscribed second is invoked before the one
subscribed first — not in subscription order `[1, 2]`. -/
theorem emit_subscription_order_counterexample :
    (emit priorityBus "e" (fun _ => false)).invoked = [2, 1] ∧
    (emit priorityBus "e" (fun _ => false)).invoked ≠ [1, 2] :=
  ⟨rfl, by decide⟩

/-- **C9 amended** — Event-bus ordering and isolation: `emit` invokes
exactly the callbacks of the event's stored subscription list, in stored
order, and that order is independent of which handlers throw — every
handler runs inside the emit loop's `try`/`catch`, so a throwing handler is
logged and never prevents the remaining handlers from running, and `emit`
is a total function (no exception reaches the emitter).  The stored order
is descending priority with ties in subscription order, so handlers
subscribed with the default priority — as all shell callers do — run
exactly in subscription order. -/
theorem emit_order_and_isolation (bus : Bus) (event : String) (cbs : List Nat)
    (throws throws' : Nat → Bool) :
    (emit bus event throws).invoked = ((busGet bus event).getD []).map (fun s => s.callback)
    ∧ (emit bus event throws).invoked = (emit bus event throws').invoked
    ∧ (emit (mkDefaultBus event cbs) event throws).invoked = cbs := by
  refine ⟨emit_invoked .., by rw [emit_invoked, emit_invoked], ?_⟩
  unfold mkDefaultBus
  rw [emit_invoked, busGetD_foldl_busOn event cbs [] (by simp [busGet])]
  have hcomp : ((fun s : Subscription => s.callback) ∘
      fun cb => (⟨cb, false, 0⟩ : Subscription)) = id := rfl
  simp [busGet, hcomp]

/-! # Claim C10 — Shallow-merge frame property of `Store.update` -/

theorem objGet_map_getD (a b : Obj) (k : String) :
    objGet (a.map (fun p => (p.1, (objGet b p.1).getD p.2))) k
      = (objGet a k).map (fun v => (objGet b k).getD v) := by
  induction a with
  | nil => rfl
  | cons p rest ih =>
    obtain ⟨k₀, v₀⟩ := p
    by_cases h : k₀ = k
    · subst h
      simp [objGet]
    · simp [objGet, h, ih]

theorem objGet_filterAbsent (a b : Obj) (k : String) :
    objGet (b.filter (fun p => (objGet a p.1).isNone)) k
      = if (objGet a k).isSome then none else objGet b k := by
  induction b with
  | nil => cases h : objGet a k <;> simp [objGet, h]
  | cons p rest ih =>
    obtain ⟨k₁, v₁⟩ := p
    by_cases hk : k₁ = k
    · subst hk
      cases ha : objGet a k₁ with
      | none => simp [List.filter_cons, ha, objGet, ih]
      | some w => simp [List.filter_cons, ha, objGet, ih]
    · cases ha : objGet a k₁ with
      | none => simp [List.filter_cons, ha, objGet, hk, ih]
      | some w => simp [List.filter_cons, ha, objGet, hk, ih]

theorem objGet_append (x y : Obj) (k : String) :
    objGet (x ++ y) k =
      match objGet x k with
      | some v => some v
      | none => objGet y k := by
  induction x with
  | nil => simp [objGet]
  | cons p rest ih =>
    obtain ⟨k₀, v₀⟩ := p
    by_cases h : k₀ = k <;> simp [objGet, h, ih]

theorem objGet_spreadMerge (a b : Obj) (k : String) :
    objGet (spreadMerge a b) k = (objGet b k).or (objGet a k) := by
  unfold spreadMerge
  rw [objGet_append, objGet_map_getD, objGet_filterAbsent]
  cases ha : objGet a k with
  | none => cases hb : objGet b k <;> simp [Option.or]
  | some v => cases hb : objGet b k <;> simp [Option.or]

/-- **C10** — Shallow-merge frame property of `Store.update`: when the slot
currently holds an object, `update(key, updates)` replaces it with the
shallow merge — every top-level key named in `updates` takes its new value
and every other top-level key keeps its old value; when the key is absent
the current value behaves as the empty object, so the merged lookup is
exactly `updates`.  `update` is a total function: it never throws. -/
theorem storeJs_update_shallow_merge (st : Obj) (key : String) (upd : Obj) :
    (∀ cur, objGet st key = some (.obj cur) →
      objGet (storeJsUpdate st key upd) key = some (.obj (spreadMerge cur upd)) ∧
      (∀ k, objGet (spreadMerge cur upd) k = (objGet upd k).or (objGet cur k)))
    ∧ (objGet st key = none →
      objGet (storeJsUpdate st key upd) key = some (.obj (spreadMerge [] upd)) ∧
      (∀ k, objGet (spreadMerge [] upd) k = objGet upd k)) := by
  constructor
  · intro cur hcur
    refine ⟨?_, fun k => objGet_spreadMerge cur upd k⟩
    simp [storeJsUpdate, storeJsSet, storeJsGet, hcur, spreadFields, objGet_objSet_self]
  · intro habs
    refine ⟨?_, fun k => ?_⟩
    · simp [storeJsUpdate, storeJsSet, storeJsGet, habs, spreadFields, objGet_objSet_self]
    · rw [objGet_spreadMerge]
      cases hb : objGet upd k <;> simp [Option.or, objGet]

/-- A store whose `auth` slot holds a two-field object. -/
def updSt : Obj := [("auth", .obj [("a", .str "1"), ("b", .str "2")])]

/-- Witness: a concrete shallow merge — the named key is replaced, the
unnamed key survives, the new key is appended; an absent slot merges into
just the updates. -/
theorem storeJs_update_shallow_merge_witness :
    objGet (storeJsUpdate updSt "auth" [("b", .str "3"), ("c", .str "4")]) "auth"
      = some (.obj [("a", .str "1"), ("b", .str "3"), ("c", .str "4")]) ∧
    objGet (storeJsUpdate updSt "missing" [("x", .str "5")]) "missing"
      = some (.obj [("x", .str "5")]) := by
  constructor
  · have h := ((storeJs_update_shallow_merge updSt "auth"
      [("b", .str "3"), ("c", .str "4")]).1 [("a", .str "1"), ("b", .str "2")] rfl).1
    rw [h]
    rfl
  · have h := ((storeJs_update_shallow_merge updSt "missing" [("x", .str "5")]).2 rfl).1
    rw [h]
    rfl

end RepLink
